import Mathlib

/-!
Verification of the voice-agent coordination core of neural-maze/voice-agent-course.

Shallow embedding of the Python sources:
- infrastructure/audio/realtime_tts_adapter.py   (RealtimeTTSAdapter)
- infrastructure/audio/audio_input_processor.py  (AudioInputProcessor)
- infrastructure/audio/transcription_processor.py (silence monitor)
- domain/agents/langgraph_agent.py               (LangGraphAgent history and stream)
- application/voice_agent.py                     (VoiceAgent coordinator)
- application/voice_agent_enhanced.py            (EnhancedVoiceAgent)

External engines (RealtimeTTS, RealtimeSTT, scipy, the LLM provider) are
collaborators: their visible behaviour is passed in as explicit parameters
(event lists, error options, time values), while the repository code that
consumes them is translated statement by statement.
-/

namespace VoiceAgentCourse

/-! ## Python string primitives

Executable models of the Python str methods the sources use; they work on
the character list so that concrete instances reduce in the kernel. -/

/-- Model of Python str.strip(): drop leading and trailing whitespace. -/
def pyStrip (s : String) : String :=
  String.mk
    (((s.data.dropWhile Char.isWhitespace).reverse.dropWhile Char.isWhitespace).reverse)

/-- Model of Python str.lower(). -/
def pyLower (s : String) : String :=
  String.mk (s.data.map Char.toLower)

/-! ## Model of RealtimeTTSAdapter (realtime_tts_adapter.py)

The adapter state mirrors the instance attributes set in RealtimeTTSAdapter.
The engine stream (TextToAudioStream) is modelled by the list of text
fragments fed to the current stream instance plus a generation counter that
is bumped whenever the code recreates the stream, and a counter of how many
times stream.stop() was invoked. Wall-clock instants are rationals. -/

inductive TTSMode
  | streaming
  | blocking
deriving DecidableEq, Repr

structure TTSState where
  fed : List String
  total_characters_processed : Nat
  is_playing : Bool
  first_audio_generated_time : Option ℚ
  transcription_received_time : Option ℚ
  current_mode : TTSMode
  stream_generation : Nat
  engine_stop_calls : Nat
deriving DecidableEq, Repr

/-- Model of RealtimeTTSAdapter.feed_text (realtime_tts_adapter.py lines 130
to 153). now is the value time.time() would return. Returns the new adapter
state and the Bool result of the method. A non-empty text is fed to the
stream, the character counter grows by its length, and the first-audio
timestamp is set when unset and the text is not pure whitespace; the empty
string is still fed to the stream and the method returns True. -/
def feed_text (now : ℚ) (text : String) (s : TTSState) : TTSState × Bool :=
  if text ≠ "" then
    let s1 : TTSState :=
      { s with fed := s.fed ++ [text],
               total_characters_processed := s.total_characters_processed + text.length }
    let s2 : TTSState :=
      if s1.first_audio_generated_time = none ∧ pyStrip text ≠ "" then
        { s1 with first_audio_generated_time := some now }
      else s1
    (s2, true)
  else
    ({ s with fed := s.fed ++ [text] }, true)

/-- Model of RealtimeTTSAdapter.play_stream_async (realtime_tts_adapter.py
lines 155 to 171) in the normal case: sets streaming mode and the playing
flag, starts engine playback, and returns True. -/
def play_stream_async (s : TTSState) : TTSState × Bool :=
  ({ s with current_mode := TTSMode.streaming, is_playing := true }, true)

/-- Model of RealtimeTTSAdapter.stop_playing (realtime_tts_adapter.py lines
193 to 220). engine_stop_error is the exception text raised by the external
stream.stop() call, or none when it returns normally; it is only consulted
when stream.stop() is actually invoked, which the code guards with
self.is_playing. On an exception whose text does not contain IDLE the stream
is recreated; the finally block always clears is_playing. The returned Bool
records whether stream.stop() was invoked. -/
def stop_playing (engine_stop_error : Option String) (s : TTSState) : TTSState × Bool :=
  if s.is_playing then
    match engine_stop_error with
    | none =>
        ({ s with engine_stop_calls := s.engine_stop_calls + 1,
                  is_playing := false, current_mode := TTSMode.blocking }, true)
    | some e =>
        let s1 : TTSState := { s with engine_stop_calls := s.engine_stop_calls + 1 }
        let s2 : TTSState :=
          if (e.splitOn ("IDLE")).length = 1 then
            { s1 with stream_generation := s1.stream_generation + 1, fed := [] }
          else s1
        ({ s2 with is_playing := false }, true)
  else
    ({ s with is_playing := false, current_mode := TTSMode.blocking }, false)

def idleAdapterState : TTSState :=
  { fed := ["hello"], total_characters_processed := 5, is_playing := false,
    first_audio_generated_time := some 2, transcription_received_time := some 1,
    current_mode := TTSMode.streaming, stream_generation := 0, engine_stop_calls := 0 }

/-! ## Model of LangGraphAgent conversation history (langgraph_agent.py)

conversation_history is a list of langchain messages; each completed turn
appends one HumanMessage and one AIMessage and the list is trimmed with the
Python slice history[-max_messages:]. -/

inductive BaseMessage
  | human (content : String)
  | ai (content : String)
deriving DecidableEq, Repr

/-- Python slice l[-k:]: the last k elements of l, except that k = 0 yields
the whole list (l[-0:] is l[0:]). -/
def pySliceLast (k : Nat) (l : List α) : List α :=
  if k = 0 then l else l.drop (l.length - k)

/-- Model of LangGraphAgent._update_history (langgraph_agent.py lines 159 to
167): extend with the human/ai pair of the turn, then trim to the last
max_history_turns * 2 entries when longer than that. -/
def update_history (max_history_turns : Nat) (conversation_history : List BaseMessage)
    (user_message ai_response : String) : List BaseMessage :=
  let h := conversation_history ++ [BaseMessage.human user_message, BaseMessage.ai ai_response]
  let max_messages := max_history_turns * 2
  if max_messages < h.length then pySliceLast max_messages h else h

/-- Model of LangGraphAgent._get_recent_history (langgraph_agent.py lines 150
to 157). -/
def get_recent_history (max_history_turns : Nat)
    (conversation_history : List BaseMessage) : List BaseMessage :=
  if conversation_history = [] then []
  else pySliceLast (max_history_turns * 2) conversation_history

/-- The two messages recorded for one completed turn (user text, ai text). -/
def turnMessages (t : String × String) : List BaseMessage :=
  [BaseMessage.human t.1, BaseMessage.ai t.2]

/-- The conversation history after processing the given completed turns in
order, starting from the empty history of a fresh LangGraphAgent. -/
def run_history (max_history_turns : Nat) (turns : List (String × String)) :
    List BaseMessage :=
  turns.foldl (fun h t => update_history max_history_turns h t.1 t.2) []

/-! ## Model of LangGraphAgent.stream (langgraph_agent.py)

One call of the agent capability is described by the finite list of
astream_events events the external iterator emits before it either completes
normally or raises a provider exception; in the latter case the events list
is exactly the consumed part of the iteration. -/

inductive AgentEvent
  | chatModelStream (content : String)
  | toolStart (name : String)
deriving DecidableEq, Repr

/-- The fragments the for-loop body of LangGraphAgent.stream yields: the
content of each on_chat_model_stream event whose chunk content is non-empty;
on_tool_start events are printed only and yield nothing. -/
def yieldedTokens (events : List AgentEvent) : List String :=
  events.filterMap fun e =>
    match e with
    | AgentEvent.chatModelStream c => if c ≠ "" then some c else none
    | AgentEvent.toolStart _ => none

/-- Model of LangGraphAgent.stream (langgraph_agent.py lines 105 to 148) for
one call: given the current max_history_turns and conversation_history, the
user message, the events consumed from the provider, and the provider error
raised after those events (none for normal completion), it returns the full
list of fragments the generator yields and the conversation history after
the call. On an error the except branch yields one synthetic fragment
(Error: followed by the exception text) and updates the history with that
fragment; on normal completion the history gains the stripped accumulated
response when that is non-empty. -/
def LangGraphAgent.stream (max_history_turns : Nat)
    (conversation_history : List BaseMessage) (user_message : String)
    (events : List AgentEvent) (provider_error : Option String) :
    List String × List BaseMessage :=
  let response_content := String.join (yieldedTokens events)
  match provider_error with
  | none =>
      if pyStrip response_content ≠ "" then
        (yieldedTokens events,
          update_history max_history_turns conversation_history user_message
            (pyStrip response_content))
      else (yieldedTokens events, conversation_history)
  | some e =>
      let error_msg := String.append ("Error: ") e
      (yieldedTokens events ++ [error_msg],
        update_history max_history_turns conversation_history user_message error_msg)

/-! ## Model of AudioInputProcessor (audio_input_processor.py)

Raw chunks are byte lists (each byte a Nat below 256; the bounds play no role
in the claims). np.frombuffer with dtype int16 decodes little-endian signed
16-bit pairs and raises ValueError when the byte count is not a multiple of
the item size; fallible operations return Except. scipy.signal.resample_poly
is external; it is modelled by its documented output-shape contract (ceil of
length * up / down samples), realising each output sample by nearest-input
selection, which is all the claims about it use. -/

/-- Signed 16-bit value from two little-endian bytes. -/
def int16OfBytes (b0 b1 : Nat) : Int :=
  let v := b0 + 256 * b1
  if 32768 ≤ v then (v : Int) - 65536 else (v : Int)

/-- Decode consecutive byte pairs as int16 samples. -/
def decodePairs : List Nat → List Int
  | [] => []
  | [_] => []
  | b0 :: b1 :: rest => int16OfBytes b0 b1 :: decodePairs rest

/-- Model of np.frombuffer(chunk, dtype=np.int16): raises ValueError unless
the length is a whole number of 2-byte items. -/
def frombufferInt16 (chunk : List Nat) : Except String (List Int) :=
  if chunk.length % 2 = 0 then Except.ok (decodePairs chunk)
  else Except.error ("buffer size must be a multiple of element size")

/-- Shape model of scipy.signal.resample_poly(x, up, down): the output has
ceil(len(x) * up / down) samples. -/
def resample_poly (x : List Int) (up down : Nat) : List Int :=
  (List.range ((x.length * up + down - 1) / down)).map fun i => x.getD (i * down / up) 0

/-- Wrapping conversion of astype(np.int16). -/
def int16Wrap (v : Int) : Int := (v + 32768).emod 65536 - 32768

/-- Clipping conversion np.clip(x, -32768, 32767).astype(np.int16). -/
def int16Clip (v : Int) : Int := max (-32768) (min 32767 v)

/-- Python slice l[::n] for a positive step n: indices 0, n, 2n, and so on. -/
def everyNth (n : Nat) (l : List Int) : List Int :=
  (List.range ((l.length + n - 1) / n)).map fun i => l.getD (i * n) 0

/-- Model of AudioInputProcessor.feed_audio_chunk (audio_input_processor.py
lines 93 to 121): decode int16 (no exception handler in the method, so a
malformed byte length propagates ValueError to the caller), resample with
resample_poly(audio, target_rate, source_rate) followed by astype(np.int16)
when the rates differ, then take every source_channels-th sample when
source_channels exceeds target_channels. The result is the sample list fed to
transcription_processor.feed_audio. -/
def feed_audio_chunk (source_sample_rate source_channels
    target_sample_rate target_channels : Nat) (audio_chunk : List Nat) :
    Except String (List Int) :=
  match frombufferInt16 audio_chunk with
  | Except.error e => Except.error e
  | Except.ok audio_np =>
      let resampled :=
        if source_sample_rate ≠ target_sample_rate then
          (resample_poly audio_np target_sample_rate source_sample_rate).map int16Wrap
        else audio_np
      let mono :=
        if target_channels < source_channels then everyNth source_channels resampled
        else resampled
      Except.ok mono

/-- Model of AudioInputProcessor.process_audio_chunk (audio_input_processor.py
lines 167 to 203): decode int16 (ValueError on odd byte count, and np.max over
the empty decoded array also raises); all-zero input short-circuits to a zero
buffer of the length expected after resampling; otherwise resample in float32
and clip back to int16 when the rates differ. resample_ratio is
source_sample_rate / target_sample_rate, so the expected silent length is
ceil(samples * target / source). -/
def process_audio_chunk (source_sample_rate target_sample_rate : Nat)
    (raw_bytes : List Nat) : Except String (List Int) :=
  match frombufferInt16 raw_bytes with
  | Except.error e => Except.error e
  | Except.ok raw_audio =>
      if raw_audio = [] then
        Except.error ("zero-size array to reduction operation maximum which has no identity")
      else if (raw_audio.map Int.natAbs).foldr max 0 = 0 then
        let expected_len :=
          (raw_audio.length * target_sample_rate + source_sample_rate - 1) /
            source_sample_rate
        Except.ok (List.replicate expected_len 0)
      else if source_sample_rate = target_sample_rate then
        Except.ok raw_audio
      else
        Except.ok
          ((resample_poly raw_audio target_sample_rate source_sample_rate).map int16Clip)

/-! ## Model of the silence monitor (transcription_processor.py)

TranscriptionProcessor._start_silence_monitor runs a loop; each iteration
reads self.silence_time (set to the wall-clock instant by on_vad_detect_start
and reset to 0 by on_vad_detect_stop), the current time, the configured
post_speech_silence_duration and the current partial text self.realtime_text
(None until a partial arrives), keeps a local hot flag, and may invoke the
final-transcription callback with the current partial text. Times are
rationals. -/

structure MonitorInput where
  silence_time : ℚ
  now : ℚ
  post_speech_silence_duration : ℚ
  realtime_text : Option String
deriving DecidableEq, Repr

/-- Model of one iteration of the monitor loop body in
_start_silence_monitor (transcription_processor.py lines 252 to 299), with
the recorder present. Input hot is the flag before the cycle; the result is
the flag after the cycle together with the text promoted to a synthetic
final transcription during the cycle, if any. -/
def monitorCycle (hot : Bool) (inp : MonitorInput) : Bool × Option String :=
  if inp.silence_time ≠ 0 then
    let early_trigger_time := inp.post_speech_silence_duration * (7 / 10 : ℚ)
    if early_trigger_time < inp.now - inp.silence_time ∧ hot = false then
      match inp.realtime_text with
      | some t => if t ≠ "" ∧ 3 < (pyStrip t).length then (true, some t) else (hot, none)
      | none => (hot, none)
    else (hot, none)
  else
    if hot then (false, none) else (hot, none)

/-- The monitor over a list of consecutive cycles: final hot flag and the
synthetic final transcriptions fired, in order. -/
def runMonitor (hot : Bool) : List MonitorInput → Bool × List String
  | [] => (hot, [])
  | inp :: rest =>
      let r := monitorCycle hot inp
      let rr := runMonitor r.1 rest
      (rr.1, r.2.toList ++ rr.2)

/-! ## Model of the VoiceAgent coordinator (voice_agent.py)

send_text_messages_task is the single consumer of transcription_queue: each
loop iteration dequeues at most one final transcription and awaits
_process_user_input on it to completion before the next iteration.
_process_user_input first checks for an exit command, then consumes the
LangGraphAgent stream chunk by chunk, sending an assistant_partial message
and feeding TTS per chunk, and finally signals assistant_complete. -/

def exit_commands : List String := ["exit", "quit", "goodbye", "stop"]

/-- The exit test of _process_user_input (voice_agent.py line 419):
user_input.lower().strip() is one of the exit commands. -/
def is_exit_command (user_input : String) : Bool :=
  exit_commands.contains (pyStrip (pyLower user_input))

/-- State threaded through the streaming loop of _process_user_input: the
TTS adapter, the callbacks tts_to_client flag, and the message types queued
to the client so far, in order. -/
structure ProcLoopState where
  tts : TTSState
  tts_to_client : Bool
  sent_messages : List String
deriving DecidableEq, Repr

/-- Model of VoiceAgent._generate_tts_chunk (voice_agent.py lines 444 to
471): a chunk with non-whitespace content is fed to the TTS adapter and, on
the first successful feed while tts_to_client is still false, playback is
started and a tts_start message is queued via
on_first_audio_chunk_synthesized; a whitespace-only chunk feeds the empty
end-of-stream string instead. -/
def generate_tts_chunk (now : ℚ) (st : ProcLoopState) (text : String) : ProcLoopState :=
  if pyStrip text ≠ "" then
    let fedr := feed_text now text st.tts
    if fedr.2 then
      if st.tts_to_client = false then
        let played := play_stream_async fedr.1
        if played.2 then
          { tts := played.1, tts_to_client := true,
            sent_messages := st.sent_messages ++ [("tts_start")] }
        else { st with tts := played.1 }
      else { st with tts := fedr.1 }
    else { st with tts := fedr.1 }
  else
    { st with tts := (feed_text now ("") st.tts).1 }

/-- One iteration of the async-for body in _process_user_input (voice_agent.py
lines 427 to 434): a non-empty chunk queues an assistant_partial message and
is handed to _generate_tts_chunk; empty chunks are skipped. -/
def process_chunk (now : ℚ) (st : ProcLoopState) (chunk : String) : ProcLoopState :=
  if chunk ≠ "" then
    let st1 : ProcLoopState :=
      { st with sent_messages := st.sent_messages ++ [("assistant_partial")] }
    generate_tts_chunk now st1 chunk
  else st

structure ProcessOutcome where
  shutdown_requested : Bool
  final : ProcLoopState
  history : List BaseMessage
deriving DecidableEq, Repr

/-- Model of VoiceAgent._process_user_input (voice_agent.py lines 413 to 442)
for one dequeued transcription: an exit command sets shutdown_requested and
returns before touching the agent, the client queue, the TTS adapter or the
history; otherwise the agent stream (described by its consumed events and
optional provider error) is consumed chunk by chunk and an
assistant_complete message ends the turn. -/
def process_user_input (now : ℚ) (max_history_turns : Nat)
    (history : List BaseMessage) (tts0 : TTSState) (tts_to_client0 : Bool)
    (user_input : String) (events : List AgentEvent) (provider_error : Option String) :
    ProcessOutcome :=
  if is_exit_command user_input then
    { shutdown_requested := true,
      final := { tts := tts0, tts_to_client := tts_to_client0, sent_messages := [] },
      history := history }
  else
    let sr := LangGraphAgent.stream max_history_turns history user_input events
      provider_error
    let st := sr.1.foldl (process_chunk now)
      { tts := tts0, tts_to_client := tts_to_client0, sent_messages := [] }
    { shutdown_requested := false,
      final := { st with sent_messages := st.sent_messages ++ [("assistant_complete")] },
      history := sr.2 }

/-! ## The coordinator as a transition system (C1)

The events that reach the coordinator from outside are the STT callbacks:
a final transcription (queued by _on_final_transcription with put_nowait)
and recording_start (which stops TTS from the capture thread). coordTick is
one scheduling step of the sequential send_text_messages_task /
_process_user_input coroutine: in the idle phase it dequeues at most one
transcription (get_nowait) and either shuts down on an exit command or
starts the agent stream for that turn; while a stream is being consumed it
advances that stream by one chunk, returning to idle only when the stream is
exhausted. agent_script gives the chunk list the agent yields per input. -/

inductive CoordEvent
  | finalTranscription (text : String)
  | recordingStart
  | coordTick
deriving DecidableEq, Repr

inductive CoordPhase
  | idle
  | consuming (remaining : List String)
deriving DecidableEq, Repr

structure CoordState where
  transcription_queue : List String
  phase : CoordPhase
  shutdown_requested : Bool
  tts_playing : Bool
  streams_started : Nat
  streams_finished : Nat
deriving DecidableEq, Repr

def coordStep (agent_script : String → List String) (s : CoordState)
    (e : CoordEvent) : CoordState :=
  match e with
  | CoordEvent.finalTranscription t =>
      { s with transcription_queue := s.transcription_queue ++ [t] }
  | CoordEvent.recordingStart => { s with tts_playing := false }
  | CoordEvent.coordTick =>
      if s.shutdown_requested then s
      else
        match s.phase with
        | CoordPhase.idle =>
            match s.transcription_queue with
            | [] => s
            | t :: rest =>
                if is_exit_command t then
                  { s with transcription_queue := rest, shutdown_requested := true }
                else
                  { s with transcription_queue := rest,
                           phase := CoordPhase.consuming (agent_script t),
                           streams_started := s.streams_started + 1 }
        | CoordPhase.consuming remaining =>
            match remaining with
            | [] =>
                { s with phase := CoordPhase.idle,
                         streams_finished := s.streams_finished + 1 }
            | _ :: rest =>
                { s with phase := CoordPhase.consuming rest, tts_playing := true }

def coordInit : CoordState :=
  { transcription_queue := [], phase := CoordPhase.idle, shutdown_requested := false,
    tts_playing := false, streams_started := 0, streams_finished := 0 }

def coordRun (agent_script : String → List String) (events : List CoordEvent) :
    CoordState :=
  events.foldl (coordStep agent_script) coordInit

/-- Agent streams started but not yet consumed to completion. -/
def active_streams (s : CoordState) : Nat := s.streams_started - s.streams_finished

/-- The inductive invariant: the number of live streams is written in the
phase. -/
def CoordInv (s : CoordState) : Prop :=
  s.streams_started =
    s.streams_finished + (match s.phase with
      | CoordPhase.consuming _ => 1
      | CoordPhase.idle => 0)

def witnessScript : String → List String := fun _ => [("one"), ("two")]

def witnessEvents : List CoordEvent :=
  [CoordEvent.finalTranscription ("hi"), CoordEvent.coordTick,
    CoordEvent.recordingStart, CoordEvent.finalTranscription ("again")]

/-! ## Side-effect order of the recording-start callback (C3) -/

inductive CoordEffect
  | tts_stop_playing
  | schedule_client_message (msg_type : String)
  | history_append
  | agent_stream_create
deriving DecidableEq, Repr

/-- Model of VoiceAgent._on_stt_recording_start (voice_agent.py lines 164 to
171): the coordinator-owned side effects the callback performs, in execution
order. It first calls tts_adapter.stop_playing() synchronously, then — when
the event loop is available — schedules callbacks.on_recording_start, which
queues the recording_start message for the client. loop_open is the
self.loop and not self.loop.is_closed() test. -/
def on_stt_recording_start (loop_open : Bool) : List CoordEffect :=
  [CoordEffect.tts_stop_playing] ++
    (if loop_open then [CoordEffect.schedule_client_message ("recording_start")]
     else [])

/-- Model of EnhancedVoiceAgent._on_recording_start (voice_agent_enhanced.py
lines 71 to 77): it only stops TTS playback. -/
def enhanced_on_recording_start : List CoordEffect :=
  [CoordEffect.tts_stop_playing]

/-! ## Theorems -/

/-- Claim C6: calling stop_playing while is_playing is false never invokes the
engine-level stream stop, cannot raise, and is a no-op on playback state: the
adapter is unchanged except that current_mode is reset to blocking, and
is_playing stays false, whatever the engine would have done on a stop call. -/
theorem stop_playing_idempotent_when_idle (engine_stop_error : Option String)
    (s : TTSState) (h : s.is_playing = false) :
    stop_playing engine_stop_error s =
      ({ s with is_playing := false, current_mode := TTSMode.blocking }, false) := by
  simp [stop_playing, h]

/-- Witness for C6 at a concrete idle adapter state, with an engine that
would even report an error on stop. -/
theorem stop_playing_idempotent_when_idle_witness :
    stop_playing (some ("boom")) idleAdapterState =
      ({ idleAdapterState with is_playing := false, current_mode := TTSMode.blocking },
        false) :=
  stop_playing_idempotent_when_idle (some ("boom")) idleAdapterState rfl

/-- Claim C7: feeding the empty string forwards it to the engine stream and
returns True for every prior adapter state, leaving the characters-processed
counter and the first-audio timestamp (and every other field) unchanged. -/
theorem feed_text_empty_signals_end_of_stream (now : ℚ) (s : TTSState) :
    feed_text now ("") s = ({ s with fed := s.fed ++ [("")] }, true) := by
  simp [feed_text]

theorem turnMessages_flatMap_length (l : List (String × String)) :
    (l.flatMap turnMessages).length = 2 * l.length := by
  induction l with
  | nil => rfl
  | cons t ts ih => simp only [List.flatMap_cons, List.length_append, ih,
      List.length_cons, turnMessages, List.length_nil]; omega

theorem run_history_append_one (m : Nat) (ts : List (String × String))
    (t : String × String) :
    run_history m (ts ++ [t]) = update_history m (run_history m ts) t.1 t.2 := by
  simp [run_history, List.foldl_append]

/-- Structure lemma: the history after a list of completed turns is exactly
the per-turn message pairs of the last max_history_turns turns, in order. -/
theorem run_history_spec (m : Nat) (hm : 0 < m) (turns : List (String × String)) :
    run_history m turns = (turns.drop (turns.length - m)).flatMap turnMessages := by
  induction turns using List.reverseRecOn with
  | nil => simp [run_history]
  | append_singleton ts t ih =>
      rw [run_history_append_one, ih]
      rcases Nat.lt_or_ge ts.length m with hlt | hge
      · have h0 : ts.length - m = 0 := by omega
        rw [h0, List.drop_zero]
        simp only [update_history, pySliceLast]
        have hlen : ((ts.flatMap turnMessages) ++
            [BaseMessage.human t.1, BaseMessage.ai t.2]).length = 2 * ts.length + 2 := by
          rw [List.length_append, turnMessages_flatMap_length]; rfl
        rw [if_neg (by omega : ¬ m * 2 < ((ts.flatMap turnMessages) ++
            [BaseMessage.human t.1, BaseMessage.ai t.2]).length)]
        have h1 : (ts ++ [t]).length - m = 0 := by
          simp only [List.length_append, List.length_cons, List.length_nil]; omega
        rw [h1, List.drop_zero, List.flatMap_append]
        simp [turnMessages]
      · -- the trimmed case: the oldest retained pair is dropped
        have hdroplen : (ts.drop (ts.length - m)).length = m := by
          simp only [List.length_drop]; omega
        obtain ⟨p, rest, hcons⟩ : ∃ p rest, ts.drop (ts.length - m) = p :: rest := by
          cases hd : ts.drop (ts.length - m) with
          | nil => rw [hd] at hdroplen; simp at hdroplen; omega
          | cons p rest => exact ⟨p, rest, rfl⟩
        have hrest : rest = ts.drop (ts.length - m + 1) := by
          have := congrArg (List.drop 1) hcons
          simpa [List.drop_drop] using this.symm
        simp only [update_history, pySliceLast]
        have hlen2 : ((ts.drop (ts.length - m)).flatMap turnMessages ++
            [BaseMessage.human t.1, BaseMessage.ai t.2]).length = 2 * m + 2 := by
          rw [List.length_append, turnMessages_flatMap_length, hdroplen]; rfl
        rw [if_pos (by omega : m * 2 < ((ts.drop (ts.length - m)).flatMap turnMessages ++
            [BaseMessage.human t.1, BaseMessage.ai t.2]).length)]
        rw [if_neg (by omega : ¬ m * 2 = 0)]
        rw [hlen2]
        have hsub : 2 * m + 2 - m * 2 = 2 := by omega
        rw [hsub, hcons]
        have hbind : (p :: rest).flatMap turnMessages =
            turnMessages p ++ rest.flatMap turnMessages := by simp
        rw [hbind, List.append_assoc,
          List.drop_left' (by simp [turnMessages] : (turnMessages p).length = 2)]
        have hts1 : (ts ++ [t]).length - m = ts.length - m + 1 := by
          simp only [List.length_append, List.length_cons, List.length_nil]; omega
        rw [hts1, List.drop_append_of_le_length (by omega : ts.length - m + 1 ≤ ts.length)]
        rw [← hrest, List.flatMap_append]
        simp [turnMessages]

/-- Counterexample to C2 as stated: with max_history_turns = 3 and N = 4
completed turns, the retained entries are not the pairs of the N = 4 most
recent turns (those would be 8 entries; only the last 3 turns survive). -/
theorem history_bounding_counterexample :
    run_history 3 [(("u1"), ("a1")), (("u2"), ("a2")), (("u3"), ("a3")), (("u4"), ("a4"))] ≠
      [(("u1"), ("a1")), (("u2"), ("a2")), (("u3"), ("a3")), (("u4"), ("a4"))].flatMap
        turnMessages := by
  decide

/-- Claim C2 (amended): after every sequence of completed turns (each call of
_update_history, error path included, appends exactly one human/ai pair), the
history length is even and at most 2 * max_history_turns; with N completed
turns it is exactly 2 * min N max_history_turns, so exactly
2 * max_history_turns once N exceeds max_history_turns; and the retained
entries are exactly the pairs of the max_history_turns (not N) most recent
turns, in order. Stated for any positive max_history_turns (the code fixes
it to 3). -/
theorem history_bounding (m : Nat) (hm : 0 < m) (turns : List (String × String)) :
    (run_history m turns).length = 2 * min turns.length m ∧
    (run_history m turns).length % 2 = 0 ∧
    (run_history m turns).length ≤ 2 * m ∧
    (m < turns.length → (run_history m turns).length = 2 * m) ∧
    run_history m turns = (turns.drop (turns.length - m)).flatMap turnMessages := by
  have hspec := run_history_spec m hm turns
  have hlen : (run_history m turns).length = 2 * min turns.length m := by
    rw [hspec, turnMessages_flatMap_length, List.length_drop]
    omega
  exact ⟨hlen, by omega, by omega, fun h => by omega, hspec⟩

/-- Witness for C2 (amended) at max_history_turns = 3 with five concrete
completed turns: six entries remain, the pairs of turns 3, 4, 5. -/
theorem history_bounding_witness :
    (run_history 3 [(("u1"), ("a1")), (("u2"), ("a2")), (("u3"), ("a3")),
        (("u4"), ("a4")), (("u5"), ("a5"))]).length = 2 * min 5 3 ∧
    run_history 3 [(("u1"), ("a1")), (("u2"), ("a2")), (("u3"), ("a3")),
        (("u4"), ("a4")), (("u5"), ("a5"))] =
      [(("u3"), ("a3")), (("u4"), ("a4")), (("u5"), ("a5"))].flatMap turnMessages := by
  have h := history_bounding 3 (by decide)
    [(("u1"), ("a1")), (("u2"), ("a2")), (("u3"), ("a3")), (("u4"), ("a4")), (("u5"), ("a5"))]
  exact ⟨h.1, h.2.2.2.2⟩

/-- Counterexample to C4 as stated: the agent raises (exception text boom)
after yielding the single token I followed by a space. The stream does yield
exactly one synthetic error fragment, but the history pair recorded for the
turn is (user_text, error text), not (user_text, partial response text +
error text): the partial prefix is absent from history. -/
theorem stream_error_history_counterexample :
    (LangGraphAgent.stream 3 [] ("hi") [AgentEvent.chatModelStream ("I ")]
        (some ("boom"))).2 ≠
      [BaseMessage.human ("hi"), BaseMessage.ai ("I Error: boom")] ∧
    (LangGraphAgent.stream 3 [] ("hi") [AgentEvent.chatModelStream ("I ")]
        (some ("boom"))) =
      ([("I "), ("Error: boom")],
        [BaseMessage.human ("hi"), BaseMessage.ai ("Error: boom")]) := by
  constructor
  · decide
  · rfl

/-- Claim C4 (amended): if the provider raises exception text e after the
stream has yielded the tokens of the consumed events, the generator yields
exactly one additional synthetic error fragment (Error: followed by e) and
terminates, and the conversation history is still updated for the turn — but
with the pair (user_text, error text), the partial response text being
discarded from history (it was already yielded to the consumer). -/
theorem stream_error_handling (max_history_turns : Nat)
    (conversation_history : List BaseMessage) (user_message : String)
    (events : List AgentEvent) (e : String) :
    LangGraphAgent.stream max_history_turns conversation_history user_message
        events (some e) =
      (yieldedTokens events ++ [String.append ("Error: ") e],
        update_history max_history_turns conversation_history user_message
          (String.append ("Error: ") e)) := by
  rfl

theorem decodePairs_length (chunk : List Nat) :
    (decodePairs chunk).length = chunk.length / 2 := by
  induction chunk using decodePairs.induct with
  | case1 => rfl
  | case2 b => simp [decodePairs]
  | case3 b0 b1 rest ih => simp only [decodePairs, List.length_cons, ih]; omega

/-- Counterexample to C5 as stated: a single-byte chunk is malformed for
16-bit PCM, and feed_audio_chunk raises ValueError to its caller (nothing in
the method catches it); process_audio_chunk raises on the same input too. -/
theorem feed_audio_chunk_odd_counterexample :
    feed_audio_chunk 48000 2 16000 1 [7] =
      Except.error ("buffer size must be a multiple of element size") ∧
    process_audio_chunk 48000 16000 [7] =
      Except.error ("buffer size must be a multiple of element size") := by
  constructor <;> rfl

/-- Claim C5 (amended): an odd byte count makes feed_audio_chunk and
process_audio_chunk raise ValueError out of the adapter to the caller (the
enclosing task loops catch and log it, so the chunk is dropped one level
up); for every well-formed chunk — even byte count, and non-empty for
process_audio_chunk — neither method raises. -/
theorem feed_audio_chunk_even_never_raises (source_sample_rate source_channels
    target_sample_rate target_channels : Nat) (audio_chunk : List Nat)
    (heven : audio_chunk.length % 2 = 0) :
    (feed_audio_chunk source_sample_rate source_channels target_sample_rate
        target_channels audio_chunk).isOk = true ∧
    (audio_chunk ≠ [] →
      (process_audio_chunk source_sample_rate target_sample_rate audio_chunk).isOk
        = true) ∧
    (audio_chunk.length % 2 = 1 →
      feed_audio_chunk source_sample_rate source_channels target_sample_rate
          target_channels audio_chunk =
        Except.error ("buffer size must be a multiple of element size")) := by
  refine ⟨?_, ?_, ?_⟩
  · simp [feed_audio_chunk, frombufferInt16, heven, Except.isOk, Except.toBool]
  · intro hne
    have hlen : (decodePairs audio_chunk).length = audio_chunk.length / 2 :=
      decodePairs_length audio_chunk
    have hpos : audio_chunk.length ≠ 0 := by
      intro h0
      exact hne (List.eq_nil_of_length_eq_zero h0)
    have hne2 : ¬ decodePairs audio_chunk = [] := by
      intro h0
      rw [h0] at hlen
      simp only [List.length_nil] at hlen
      omega
    simp only [process_audio_chunk, frombufferInt16, heven, reduceIte, hne2, if_false]
    split
    · simp [Except.isOk, Except.toBool]
    · split <;> simp [Except.isOk, Except.toBool]
  · intro hodd
    omega

theorem feed_audio_chunk_even_never_raises_witness :
    ((feed_audio_chunk 48000 2 16000 1 [1, 0, 2, 0]).isOk = true ∧
      (process_audio_chunk 48000 16000 [1, 0, 2, 0]).isOk = true) :=
  ⟨(feed_audio_chunk_even_never_raises 48000 2 16000 1 [1, 0, 2, 0] rfl).1,
    (feed_audio_chunk_even_never_raises 48000 2 16000 1 [1, 0, 2, 0] rfl).2.1
      (by decide)⟩

/-- Claim C8: a chunk of n int16 samples (2n bytes) fed with source rate
48000 and 2 channels to an adapter targeting 16000 mono comes out as a flat
(mono) sample list of exactly ceil(n / 6) samples, that is approximately
n * 16000 / 48000 / 2: resampling by 16000/48000 gives ceil(n / 3) samples
and stride-2 channel subsampling then gives ceil(n / 6). -/
theorem feed_audio_chunk_resample_length (n : Nat) (audio_chunk : List Nat)
    (hlen : audio_chunk.length = 2 * n) :
    ∃ out, feed_audio_chunk 48000 2 16000 1 audio_chunk = Except.ok out ∧
      out.length = (n + 5) / 6 ∧ n ≤ 6 * out.length ∧ 6 * out.length < n + 6 := by
  have heven : audio_chunk.length % 2 = 0 := by omega
  have hdec : (decodePairs audio_chunk).length = n := by
    rw [decodePairs_length, hlen]; omega
  refine ⟨everyNth 2 ((resample_poly (decodePairs audio_chunk) 16000 48000).map int16Wrap),
    ?_, ?_⟩
  · simp [feed_audio_chunk, frombufferInt16, heven]
  · have hres : ((resample_poly (decodePairs audio_chunk) 16000 48000).map
        int16Wrap).length = (n * 16000 + 47999) / 48000 := by
      simp [resample_poly, hdec]
    have hout : (everyNth 2 ((resample_poly (decodePairs audio_chunk) 16000 48000).map
        int16Wrap)).length = ((n * 16000 + 47999) / 48000 + 1) / 2 := by
      simp [everyNth, hres]
    refine ⟨?_, ?_, ?_⟩ <;> rw [hout] <;> omega

/-- Witness for C8 with a concrete 14-sample (28-byte) stereo chunk:
ceil(14 / 6) = 3 output samples. -/
theorem feed_audio_chunk_resample_length_witness :
    ∃ out, feed_audio_chunk 48000 2 16000 1 (List.replicate 28 1) = Except.ok out ∧
      out.length = (14 + 5) / 6 ∧ 14 ≤ 6 * out.length ∧ 6 * out.length < 14 + 6 :=
  feed_audio_chunk_resample_length 14 (List.replicate 28 1) (by decide)

theorem runMonitor_hot_silent (inputs : List MonitorInput)
    (h : ∀ i ∈ inputs, i.silence_time ≠ 0) : runMonitor true inputs = (true, []) := by
  induction inputs with
  | nil => rfl
  | cons inp rest ih =>
      have hinp : inp.silence_time ≠ 0 := h inp (List.mem_cons_self inp rest)
      have hcyc : monitorCycle true inp = (true, none) := by
        simp [monitorCycle, hinp]
      simp [runMonitor, hcyc, ih fun i hi => h i (List.mem_cons_of_mem inp hi)]

theorem monitorCycle_fire_sets_hot (hot : Bool) (inp : MonitorInput)
    (h : (monitorCycle hot inp).2 ≠ none) : (monitorCycle hot inp).1 = true := by
  rcases htext : inp.realtime_text with _ | t <;>
    simp only [monitorCycle, htext] at h ⊢ <;>
    split_ifs at h ⊢ <;> simp_all

theorem runMonitor_fires_at_most_once (hot : Bool) (inputs : List MonitorInput)
    (h : ∀ i ∈ inputs, i.silence_time ≠ 0) :
    (runMonitor hot inputs).2.length ≤ 1 := by
  induction inputs generalizing hot with
  | nil => simp [runMonitor]
  | cons inp rest ih =>
      have hrest : ∀ i ∈ rest, i.silence_time ≠ 0 :=
        fun i hi => h i (List.mem_cons_of_mem inp hi)
      by_cases hfire : (monitorCycle hot inp).2 = none
      · have := ih (monitorCycle hot inp).1 hrest
        simp only [runMonitor, hfire, Option.toList_none, List.nil_append]
        exact this
      · -- the cycle fired, so the flag is hot and the rest of the period is quiet
        have hflag := monitorCycle_fire_sets_hot hot inp hfire
        have hrest2 := runMonitor_hot_silent rest hrest
        cases hr2 : (monitorCycle hot inp).2 with
        | none => exact absurd hr2 hfire
        | some t => simp [runMonitor, hr2, hflag, hrest2]

/-- Claim C9: in any monitor cycle where a silence start is recorded
(silence_time non-zero), the elapsed silence exceeds 70 percent of the
post-speech silence window, the monitor is not hot, and the current partial
text stripped of whitespace is longer than 3 characters, the partial text is
promoted to a synthetic final event and the hot flag is set; a partial text
whose stripped length is at most 3 never fires; once hot, no further cycle of
the same silence period fires, so over any run of cycles within one silence
period starting cold, at most one synthetic final fires. -/
theorem silence_timeout_escalation (hot : Bool) (inp : MonitorInput) :
    (inp.silence_time ≠ 0 →
      inp.post_speech_silence_duration * (7 / 10 : ℚ) < inp.now - inp.silence_time →
      hot = false →
      ∀ t, inp.realtime_text = some t → 3 < (pyStrip t).length →
        monitorCycle hot inp = (true, some t)) ∧
    (∀ t, inp.realtime_text = some t → (pyStrip t).length ≤ 3 →
      (monitorCycle hot inp).2 = none) ∧
    (hot = true → inp.silence_time ≠ 0 → monitorCycle hot inp = (true, none)) ∧
    (∀ inputs : List MonitorInput, (∀ i ∈ inputs, i.silence_time ≠ 0) →
      (runMonitor false inputs).2.length ≤ 1) := by
  refine ⟨?_, ?_, ?_, ?_⟩
  · intro hsil helapsed hcold t htext hlong
    have htne : t ≠ "" := by
      intro h0
      rw [h0] at hlong
      simp [pyStrip] at hlong
    simp [monitorCycle, hsil, helapsed, hcold, htext, htne, hlong]
  · intro t htext hshort
    have hnot : ¬ (t ≠ "" ∧ 3 < (pyStrip t).length) := fun hpair =>
      absurd hpair.2 (by omega)
    simp only [monitorCycle, htext]
    split_ifs <;> rfl
  · intro hhot hsil
    simp [monitorCycle, hsil, hhot]
  · exact fun inputs h => runMonitor_fires_at_most_once false inputs h

/-- Witness for C9: a concrete silence period (silence started at instant 1,
cycle at instant 2, window 1 second, so 1 second of silence exceeds 0.7) with
a long partial promotes it; a 2-character partial does not. -/
theorem silence_timeout_escalation_witness :
    monitorCycle false
        { silence_time := 1, now := 2, post_speech_silence_duration := 1,
          realtime_text := some ("hello there") } = (true, some ("hello there")) ∧
    (monitorCycle false
        { silence_time := 1, now := 2, post_speech_silence_duration := 1,
          realtime_text := some ("hi") }).2 = none := by
  constructor
  · exact (silence_timeout_escalation false _).1 (by norm_num) (by norm_num) rfl
      ("hello there") rfl (by decide)
  · exact (silence_timeout_escalation false _).2.1 ("hi") rfl (by decide)

/-- Claim C10: for every user input whose lowercased stripped text is an exit
command, _process_user_input sets the shutdown flag and returns without
invoking the agent stream: no assistant_partial (or any other) message is
queued, the TTS adapter is untouched, and the conversation history is
unchanged, whatever the agent would have produced. -/
theorem exit_command_short_circuit (now : ℚ) (max_history_turns : Nat)
    (history : List BaseMessage) (tts0 : TTSState) (tts_to_client0 : Bool)
    (user_input : String) (events : List AgentEvent) (provider_error : Option String)
    (h : is_exit_command user_input = true) :
    process_user_input now max_history_turns history tts0 tts_to_client0 user_input
        events provider_error =
      { shutdown_requested := true,
        final := { tts := tts0, tts_to_client := tts_to_client0, sent_messages := [] },
        history := history } := by
  simp [process_user_input, h]

/-- Witness for C10 on the concrete input Goodbye with surrounding blanks and
an agent script that would have produced output. -/
theorem exit_command_short_circuit_witness :
    process_user_input 0 3 [BaseMessage.human ("hi"), BaseMessage.ai ("yo")]
        idleAdapterState false (" Goodbye ")
        [AgentEvent.chatModelStream ("ignored")] none =
      { shutdown_requested := true,
        final := { tts := idleAdapterState, tts_to_client := false, sent_messages := [] },
        history := [BaseMessage.human ("hi"), BaseMessage.ai ("yo")] } :=
  exit_command_short_circuit 0 3 [BaseMessage.human ("hi"), BaseMessage.ai ("yo")]
    idleAdapterState false (" Goodbye ") [AgentEvent.chatModelStream ("ignored")] none
    (by decide)

theorem coordStep_preserves_inv (agent_script : String → List String)
    (s : CoordState) (e : CoordEvent) (h : CoordInv s) :
    CoordInv (coordStep agent_script s e) := by
  cases e with
  | finalTranscription t => exact h
  | recordingStart => exact h
  | coordTick =>
      unfold CoordInv coordStep at *
      by_cases hsd : s.shutdown_requested = true
      · simp [hsd]; exact h
      · simp only [Bool.not_eq_true] at hsd
        cases hp : s.phase with
        | idle =>
            rw [hp] at h; simp only [] at h
            cases hq : s.transcription_queue with
            | nil => simp [hsd, hp, hq]; omega
            | cons t rest =>
                by_cases hex : is_exit_command t = true
                · simp [hsd, hp, hq, hex]; omega
                · simp [hsd, hp, hq, hex]; omega
        | consuming remaining =>
            rw [hp] at h; simp only [] at h
            cases hr : remaining with
            | nil => simp [hsd, hp, hr]; omega
            | cons c rest => simp [hsd, hp, hr]; omega

theorem coordRun_inv (agent_script : String → List String)
    (events : List CoordEvent) : CoordInv (coordRun agent_script events) := by
  have hgen : ∀ (s : CoordState), CoordInv s →
      CoordInv (events.foldl (coordStep agent_script) s) := by
    induction events with
    | nil => exact fun s hs => hs
    | cons e rest ih =>
        intro s hs
        exact ih (coordStep agent_script s e) (coordStep_preserves_inv agent_script s e hs)
  exact hgen coordInit (by simp [CoordInv, coordInit])

/-- Claim C1: over every sequence of interleaved final-transcript,
recording_start and coordinator-scheduling events, at most one agent
response stream is active at any instant (every prefix of an event sequence
is itself a sequence, so this covers every instant), and while a stream is
still being consumed no event can start a new one: transcriptions are
dequeued and processed one at a time, each awaited to completion first. -/
theorem single_live_turn (agent_script : String → List String)
    (events : List CoordEvent) :
    active_streams (coordRun agent_script events) ≤ 1 ∧
    (∀ (e : CoordEvent) (remaining : List String),
      (coordRun agent_script events).phase = CoordPhase.consuming remaining →
      (coordStep agent_script (coordRun agent_script events) e).streams_started =
        (coordRun agent_script events).streams_started) := by
  have hinv := coordRun_inv agent_script events
  constructor
  · unfold CoordInv at hinv
    unfold active_streams
    cases hp : (coordRun agent_script events).phase <;> rw [hp] at hinv <;>
      simp only [] at hinv <;> omega
  · intro e remaining hp
    cases e with
    | finalTranscription t => rfl
    | recordingStart => rfl
    | coordTick =>
        unfold coordStep
        by_cases hsd : (coordRun agent_script events).shutdown_requested = true
        · simp [hsd]
        · simp only [Bool.not_eq_true] at hsd
          cases hr : remaining with
          | nil => simp [hsd, hp, hr]
          | cons c rest => simp [hsd, hp, hr]

/-- Witness for C1 at a concrete interleaving that leaves the coordinator
mid-stream: the stream count is bounded and a further tick starts nothing. -/
theorem single_live_turn_witness :
    active_streams (coordRun witnessScript witnessEvents) ≤ 1 ∧
    (coordStep witnessScript (coordRun witnessScript witnessEvents)
        CoordEvent.coordTick).streams_started =
      (coordRun witnessScript witnessEvents).streams_started :=
  ⟨(single_live_turn witnessScript witnessEvents).1,
    (single_live_turn witnessScript witnessEvents).2 CoordEvent.coordTick
      [("one"), ("two")] rfl⟩

/-- Claim C3: when recording_start fires, stopping TTS playback is the first
coordinator-owned side effect — it precedes any message scheduled to the
client, and the handler performs no history append and creates no agent
stream at all; the enhanced agent handler stops TTS and does nothing else. -/
theorem recording_start_stops_tts_first (loop_open : Bool) :
    (on_stt_recording_start loop_open).head? = some CoordEffect.tts_stop_playing ∧
    CoordEffect.history_append ∉ on_stt_recording_start loop_open ∧
    CoordEffect.agent_stream_create ∉ on_stt_recording_start loop_open ∧
    enhanced_on_recording_start = [CoordEffect.tts_stop_playing] := by
  cases loop_open <;> exact ⟨rfl, by decide, by decide, rfl⟩

end VoiceAgentCourse
